import Mathlib

/-!
Verification of the arrival-classification and display pipeline of the
DC Metro Status plugin (`src/manager.py`).

The Python module is shallowly embedded: JSON payloads become the `JVal`
inductive, the mutable plugin instance becomes the `PState` structure that
is threaded explicitly, Python exceptions inside `_parse_arrivals` become
`Except Unit`, and draw calls on the display manager become an explicit
list of `DrawCmd` values.  Machine integers are modelled as `Int`/`Nat`
(Python integers are unbounded, so no wrap-around is needed).
-/

namespace MetroStatus

/-- A JSON-like Python value, as produced by `response.json()`.
Numbers are restricted to integers (the WMATA fields used here are
strings or integers). -/
inductive JVal where
  | null
  | bool (b : Bool)
  | num (n : Int)
  | str (s : String)
  | arr (items : List JVal)
  | obj (fields : List (String × JVal))

/-- One entry of `self.train_data`: the dict built for each train in
`_parse_arrivals` (keys `destination`, `line`, `minutes`, `color`).
The `line` field is stored raw, exactly as Python stores the value of
`train.get("Line", "")`. -/
structure TrainInfo where
  destination : String
  line : JVal
  minutes : String
  color : Nat × Nat × Nat

/-- Python `dict.get(key, default)` on a dict modelled as an association
list (Python dicts have unique keys, so first match is the match). -/
def jGet (fields : List (String × JVal)) (key : String) (default : JVal) : JVal :=
  match fields.find? (fun p => p.1 == key) with
  | some p => p.2
  | none => default

/-- The characters stripped by Python `str.strip()` / `int(str)`
(ASCII whitespace). -/
def isPyWS (c : Char) : Bool :=
  c == ' ' || c == '\t' || c == '\n' || c == '\x0d' || c == '\x0b' || c == '\x0c'

/-- Python `str.strip()`: remove leading and trailing whitespace. -/
def pyStrip (s : String) : String :=
  String.mk (((s.toList.dropWhile isPyWS).reverse.dropWhile isPyWS).reverse)

/-- Digit run accepted by Python `int(str)` after the optional sign:
digits, with single underscores allowed strictly between digits. -/
def digitsAcc : List Char → Nat → Option Nat
  | [], acc => some acc
  | '_' :: d :: rest, acc =>
    if d.isDigit then digitsAcc rest (acc * 10 + (d.toNat - 48)) else none
  | '_' :: [], _ => none
  | c :: rest, acc =>
    if c.isDigit then digitsAcc rest (acc * 10 + (c.toNat - 48)) else none

/-- Nonempty digit run (first character must be a digit). -/
def pyIntDigits : List Char → Option Nat
  | [] => none
  | c :: rest => if c.isDigit then digitsAcc rest (c.toNat - 48) else none

/-- Sign handling of Python `int(str)`. -/
def pyIntCore : List Char → Option Int
  | '+' :: rest => (pyIntDigits rest).map (fun n => (n : Int))
  | '-' :: rest => (pyIntDigits rest).map (fun n => -(n : Int))
  | l => (pyIntDigits l).map (fun n => (n : Int))

/-- Python `int(s)` for a string `s`: strip whitespace, optional single
sign, ASCII digits with underscore separators.  `none` models
`ValueError`. -/
def pyIntOfString (s : String) : Option Int :=
  pyIntCore (((s.toList.dropWhile isPyWS).reverse.dropWhile isPyWS).reverse)

/-- Python `int(x)` on a JSON value: ints convert to themselves, bools to
0/1, strings are parsed; everything else raises
`TypeError`/`ValueError`, modelled as `none` (the call site catches
exactly these two exception types). -/
def pyInt : JVal → Option Int
  | .num n => some n
  | .bool b => some (if b then 1 else 0)
  | .str s => pyIntOfString s
  | _ => none

/-- Python `x == "lit"` where `"lit"` is a string literal: true exactly
when `x` is that string. -/
def isStrEq : JVal → String → Bool
  | .str s, t => s == t
  | _, _ => false

/-- Minutes formatting of `_parse_arrivals` (manager.py lines 230-239):
`"ARR"`/`"BRD"` pass through, otherwise `f"{int(minutes)} MIN"` with
fallback `"--"` on `ValueError`/`TypeError`. -/
def formatMinutes (m : JVal) : String :=
  if isStrEq m "ARR" then "ARR"
  else if isStrEq m "BRD" then "BRD"
  else
    match pyInt m with
    | some n => toString n ++ " MIN"
    | none => "--"

/-- `LINE_CODES.get(line_code, {}).get("color", (255, 255, 255))` for a
string key (manager.py lines 87-94 and 172-174). -/
def lineColor (s : String) : Nat × Nat × Nat :=
  if s = "RD" then (255, 0, 0)
  else if s = "BL" then (0, 0, 255)
  else if s = "SV" then (145, 145, 145)
  else if s = "OR" then (255, 165, 0)
  else if s = "GR" then (0, 128, 0)
  else if s = "YL" then (255, 255, 0)
  else (255, 255, 255)

/-- `self._get_line_color(line)` on a raw JSON value.  A list or dict key
raises `TypeError` (unhashable) which escapes to the outer handler of
`_parse_arrivals`; any other non-string key is simply absent from
`LINE_CODES`, giving the white default. -/
def getLineColor : JVal → Except Unit (Nat × Nat × Nat)
  | .arr _ => .error ()
  | .obj _ => .error ()
  | .str s => .ok (lineColor s)
  | .num _ => .ok (255, 255, 255)
  | .bool _ => .ok (255, 255, 255)
  | .null => .ok (255, 255, 255)

/-- The body of the per-train loop of `_parse_arrivals` (lines 224-248).
A train that is not a dict raises `AttributeError` on `.get`; a
`DestinationName` that is not a string raises on `.strip()`; an
unhashable `Line` raises inside `_get_line_color`. -/
def parseTrain (train : JVal) : Except Unit TrainInfo :=
  match train with
  | .obj kvs =>
    match jGet kvs "DestinationName" (JVal.str "") with
    | .str s =>
      match getLineColor (jGet kvs "Line" (JVal.str "")) with
      | .ok c =>
        .ok { destination := pyStrip s
              line := jGet kvs "Line" (JVal.str "")
              minutes := formatMinutes (jGet kvs "Min" (JVal.str ""))
              color := c }
      | .error e => .error e
    | _ => .error ()
  | _ => .error ()

/-- The row `parseTrain` builds for a well-formed train (total version,
used to state that real entries are kept in API order). -/
def buildRow (train : JVal) : TrainInfo :=
  match train with
  | .obj kvs =>
    { destination := pyStrip (match jGet kvs "DestinationName" (JVal.str "") with
        | .str s => s
        | _ => "")
      line := jGet kvs "Line" (JVal.str "")
      minutes := formatMinutes (jGet kvs "Min" (JVal.str ""))
      color := match getLineColor (jGet kvs "Line" (JVal.str "")) with
        | .ok c => c
        | .error _ => (255, 255, 255) }
  | _ => { destination := "", line := JVal.str "", minutes := "--", color := (255, 255, 255) }

/-- A train record that the loop body of `_parse_arrivals` processes
without raising: a dict whose `DestinationName` (or its default) is a
string and whose `Line` (or its default) is hashable. -/
def wfTrain : JVal → Bool
  | .obj kvs =>
    (match jGet kvs "DestinationName" (JVal.str "") with
      | .str _ => true
      | _ => false)
    && (match jGet kvs "Line" (JVal.str "") with
      | .arr _ => false
      | .obj _ => false
      | _ => true)
  | _ => false

/-- `data.get("Trains", [])`: the payload must be a dict
(`AttributeError` otherwise). -/
def jGetTrains : JVal → Except Unit JVal
  | .obj kvs => .ok (jGet kvs "Trains" (JVal.arr []))
  | _ => .error ()

/-- `len(trains)` followed by `for train in trains`: lists iterate their
items, strings their characters, dicts their keys; numbers, booleans and
`None` raise `TypeError` on `len`. -/
def iterTrains : JVal → Except Unit (List JVal)
  | .arr l => .ok l
  | .str s => .ok (s.toList.map (fun c => JVal.str (String.mk [c])))
  | .obj kvs => .ok (kvs.map (fun kv => JVal.str kv.1))
  | _ => .error ()

/-- The `for train in trains` loop of `_parse_arrivals`: rows are
appended in API order and the first exception aborts the loop. -/
def parseTrains : List JVal → Except Unit (List TrainInfo)
  | [] => .ok []
  | t :: rest =>
    match parseTrain t with
    | .error e => .error e
    | .ok r =>
      match parseTrains rest with
      | .error e => .error e
      | .ok rs => .ok (r :: rs)

/-- The whole `try` body of `_parse_arrivals` up to the padding step:
either the list of built rows, or the first exception raised. -/
def parseArrivalsE (data : JVal) : Except Unit (List TrainInfo) :=
  match jGetTrains data with
  | .error e => .error e
  | .ok tv =>
    match iterTrains tv with
    | .error e => .error e
    | .ok l => parseTrains l

/-- The `"NO DATA"` padding row appended while fewer than 3 rows exist
(manager.py lines 255-261). -/
def noDataRow : TrainInfo :=
  { destination := "NO DATA", line := JVal.str "", minutes := "--", color := (255, 255, 255) }

/-- The `"ERROR"` placeholder row installed by the exception handler of
`_parse_arrivals` (lines 265-272). -/
def errorRow : TrainInfo :=
  { destination := "ERROR", line := JVal.str "", minutes := "--", color := (255, 255, 255) }

/-- `while len(self.train_data) < 3: append NO DATA`. -/
def padTo3 (l : List TrainInfo) : List TrainInfo :=
  l ++ List.replicate (3 - l.length) noDataRow

/-- The fields of the plugin written by `_parse_arrivals`. -/
structure ParseOut where
  train_data : List TrainInfo
  actual_train_count : Nat

/-- `_parse_arrivals` (manager.py lines 214-272): net effect on
`self.train_data` / `self.actual_train_count`.  On success the real rows
(in API order) are padded to at least 3 with `"NO DATA"`; on any
exception the handler atomically installs three `"ERROR"` rows and a
zero count. -/
def parseArrivals (data : JVal) : ParseOut :=
  match parseArrivalsE data with
  | .ok l => { train_data := padTo3 l, actual_train_count := l.length }
  | .error _ => { train_data := [errorRow, errorRow, errorRow], actual_train_count := 0 }

/-- `mkPayload l` is the well-shaped API payload `{"Trains": l}`. -/
def mkPayload (l : List JVal) : JVal :=
  JVal.obj [("Trains", JVal.arr l)]

/-- Mutable plugin state touched by `_fetch_arrivals` and `display`
(`__init__`, manager.py lines 145-153).  `scroll_step` models the lazily
created `_scroll_step` attribute: it is only read after being written in
the same branch, so initialising it to 0 is equivalent to the
`hasattr` dance.  `last_rendered_data` stores the visible
`(destination, minutes)` pairs themselves in place of Python's
`hash(tuple(...))` of them (the sentinel `None` becomes `none`). -/
structure PState where
  train_data : List TrainInfo
  actual_train_count : Nat
  scroll_offset : Nat
  scroll_step : Nat
  last_rendered_data : Option (List (String × String))
  last_scroll_offset : Option Nat
  last_update : Option Nat

/-- The plugin state right after `__init__` with no API key configured
(the initial `_fetch_arrivals` returns `False` without touching
state). -/
def initState : PState :=
  { train_data := []
    actual_train_count := 0
    scroll_offset := 0
    scroll_step := 0
    last_rendered_data := none
    last_scroll_offset := none
    last_update := none }

/-- Outcome of the HTTP fetch in `_fetch_arrivals`: `reqError` covers
`requests.RequestException` (network failure, timeout, and non-2xx via
`raise_for_status`), `jsonError` covers `json.JSONDecodeError` from
`response.json()`, `ok` carries the decoded payload. -/
inductive NetResult where
  | reqError
  | jsonError
  | ok (data : JVal)

/-- `_fetch_arrivals` (manager.py lines 176-212): missing API key or any
fetch failure returns `False` leaving the state untouched; a decoded
payload is handed to `_parse_arrivals` and `last_update` is stamped. -/
def fetchArrivals (apiKey : String) (net : NetResult) (now : Nat) (st : PState) :
    Bool × PState :=
  if apiKey = "" then (false, st)
  else
    match net with
    | .reqError => (false, st)
    | .jsonError => (false, st)
    | .ok data =>
      let p := parseArrivals data
      (true, { st with
        train_data := p.train_data
        actual_train_count := p.actual_train_count
        last_update := some now })

/-- External collaborators of `display`: the enable flag, the display
manager with its dimensions and `get_text_width`, and the (title-cased)
station name drawn in the header.  Text is measured and drawn as lists
of characters. -/
structure Env where
  enabled : Bool
  hasDM : Bool
  width : Int
  height : Int
  textWidth : List Char → Nat
  station : List Char

/-- One call on the display manager recorded by `display`. -/
inductive DrawCmd where
  | clear
  | text (s : List Char) (x y : Int) (color : Nat × Nat × Nat)
  | updateDisplay
deriving DecidableEq

/-- `max_visible_trains = max(3, (display_height - 7 - 2) // 8)`
(manager.py lines 331-332; `//` is Python floor division). -/
def maxVisibleTrains (env : Env) : Nat :=
  (max 3 (Int.fdiv (env.height - 7 - 2) 8)).toNat

/-- `max_scroll = max(0, actual_train_count * 8 - (height - 7 - 2))`
(manager.py lines 342-344). -/
def maxScrollOf (env : Env) (count : Nat) : Nat :=
  (max 0 ((count : Int) * 8 - (env.height - 7 - 2))).toNat

/-- `current_data_hash`: the `(destination, minutes)` pairs of the first
`max_visible_trains` rows (manager.py line 335). -/
def hashOf (env : Env) (st : PState) : List (String × String) :=
  (st.train_data.take (maxVisibleTrains env)).map (fun t => (t.destination, t.minutes))

/-- Scroll-offset update of `display` (manager.py lines 338-359): when
more real trains exist than fit, advance `_scroll_step` by 7 and wrap
the offset cyclically over `max_scroll + line_height`; otherwise pin the
offset to 0. -/
def scrollUpdate (env : Env) (st : PState) : PState :=
  if st.actual_train_count > maxVisibleTrains env then
    let max_scroll : Int := max 0 ((st.actual_train_count : Int) * 8 - (env.height - 7 - 2))
    let step := st.scroll_step + 7
    let cycle_period : Int := max_scroll + 8
    if 0 < cycle_period then
      { st with scroll_step := step, scroll_offset := step % cycle_period.toNat }
    else
      { st with scroll_step := step, scroll_offset := 0 }
  else
    { st with scroll_offset := 0 }

/-- Fuel-indexed form of the character-dropping loop: each iteration
requires `l.length > 1` and shortens `l` by one, so fuel equal to the
initial length makes the recursion structural without changing the
result. -/
def shrinkAux (w : List Char → Nat) (avail : Int) : Nat → List Char → List Char
  | 0, l => l
  | fuel + 1, l =>
    if (w l : Int) > avail ∧ l.length > 1 then shrinkAux w avail fuel l.dropLast
    else l

/-- The character-dropping loop shared by the station-name and
destination truncation (`while get_text_width(t) > avail and len(t) > 1:
t = t[:-1]`, manager.py lines 380-381 and 444-445). -/
def shrinkToFit (w : List Char → Nat) (avail : Int) (l : List Char) : List Char :=
  shrinkAux w avail l.length l

/-- `t[:-2] + ".." if len(t) > 2 else ".."`. -/
def ellipsize (t : List Char) : List Char :=
  if t.length > 2 then t.dropLast.dropLast ++ ['.', '.'] else ['.', '.']

/-- Truncation applied to each rendered destination (manager.py lines
443-448): shrink until it fits (or one character remains), then replace
the tail with the two-dot marker whenever anything was dropped. -/
def truncDest (w : List Char → Nat) (avail : Int) (dest : List Char) : List Char :=
  let t := shrinkToFit w avail dest
  if t.length < dest.length then ellipsize t else t

/-- Draw commands for row `i` of the train list (manager.py lines
420-466): skip rows scrolled off the canvas, right-align the minutes,
truncate the destination to `minutes_x - spacing`. -/
def rowDraw (env : Env) (offset : Nat) (i : Nat) (t : TrainInfo) : List DrawCmd :=
  let y_pos : Int := (7 + 1) + (i : Int) * 8 - (offset : Int)
  if y_pos + 8 < 0 ∨ y_pos > env.height then []
  else
    let minutes_width := env.textWidth t.minutes.toList
    let minutes_x : Int := env.width - (minutes_width : Int) - 2
    let max_dest_available : Int := minutes_x - 2
    let truncated_dest := truncDest env.textWidth max_dest_available t.destination.toList
    [DrawCmd.text truncated_dest 0 y_pos t.color,
     DrawCmd.text t.minutes.toList minutes_x y_pos t.color]

/-- Projection of a row into the returned `display_data["trains"]` entry
(manager.py lines 481-486). -/
def reduceTrain (t : TrainInfo) : String × String × JVal :=
  (t.destination, t.minutes, t.line)

/-- The drawing phase of `display`, reached when the redraw-suppression
check fails (manager.py lines 367-489): clear, draw the scrolling
header, then either the `"NO DATA"` message or the rows, record the
fingerprint and scroll offset, and report the first
`actual_train_count` rows. -/
def render (env : Env) (st1 : PState) :
    PState × List (String × String × JVal) × List DrawCmd :=
  let offset := st1.scroll_offset
  let truncated_name := shrinkToFit env.textWidth (env.width - 10) env.station
  let station_display :=
    if truncated_name.length < env.station.length then ellipsize truncated_name
    else truncated_name
  let headerCmds := [DrawCmd.clear,
    DrawCmd.text station_display 0 (0 - (offset : Int)) (255, 255, 255)]
  let st2 := { st1 with
    last_rendered_data := some (hashOf env st1)
    last_scroll_offset := some offset }
  if st1.train_data.isEmpty = true
      ∨ st1.train_data.all (fun t => t.destination == "NO DATA") = true then
    (st2, [],
      headerCmds ++ [DrawCmd.text "NO DATA".toList 5 (7 - (offset : Int)) (255, 128, 0),
        DrawCmd.updateDisplay])
  else
    let rowCmds := (st1.train_data.enum).flatMap (fun it => rowDraw env offset it.1 it.2)
    let trains_out := (st1.train_data.take st1.actual_train_count).map reduceTrain
    (st2, trains_out, headerCmds ++ rowCmds ++ [DrawCmd.updateDisplay])

/-- `display` (manager.py lines 307-489): disabled or manager-less
plugins return immediately; otherwise the scroll offset is updated, and
when neither the data fingerprint nor the scroll offset changed and no
forced clear is requested, no draw call is made and the trains list is
empty. -/
def display (env : Env) (force_clear : Bool) (st : PState) :
    PState × List (String × String × JVal) × List DrawCmd :=
  if env.enabled = true ∧ env.hasDM = true then
    let st1 := scrollUpdate env st
    if st.last_rendered_data = some (hashOf env st)
        ∧ st.last_scroll_offset = some st1.scroll_offset
        ∧ force_clear = false then
      (st1, [], [])
    else render env st1
  else (st, [], [])

/-- `_get_direction`: lowercase the destination and test the east
keyword list, then the west keyword list (manager.py lines 274-293). -/
def east_destinations : List String :=
  ["largo", "branch", "suitland", "naylor", "congress", "southern",
   "navy yard", "anacostia", "waterfront", "ikea"]

/-- West-bound keyword list of `_get_direction` (manager.py line 282). -/
def west_destinations : List String :=
  ["vienna", "ashburn", "dunn loring", "falls church", "west falls",
   "friendship heights", "bethesda", "medical center", "shady grove",
   "glenmont", "uptown", "tenleytown", "van ness"]

/-- Python `str.lower()` (ASCII; the keyword tables are ASCII). -/
def strLower (s : String) : String :=
  String.mk (s.toList.map Char.toLower)

/-- Python `needle in hay` for strings: substring test. -/
def strContains (hay needle : String) : Bool :=
  (hay.toList.tails).any (fun t => needle.toList.isPrefixOf t)

/-- `_get_direction` (manager.py lines 274-293).  Note: the code takes
only the destination; there is no direction-group fallback. -/
def getDirection (destination : String) : String :=
  let dl := strLower destination
  if east_destinations.any (fun d => strContains dl d) then "east"
  else if west_destinations.any (fun d => strContains dl d) then "west"
  else "east"

/-- Modelled from the spec: the direction classifier described in §4.1
of the spec, which after both keyword lists fail is said to "fall back
to an explicit direction-group tag on the record when present (group
\"1\" → east, group \"2\" → west); if still unresolved, default to
east".  This group fallback is absent from `_get_direction` in
`src/manager.py`; this definition follows the spec's words so the two
can be compared. -/
def specGetDirection (destination : String) (group : Option String) : String :=
  let dl := strLower destination
  if east_destinations.any (fun d => strContains dl d) then "east"
  else if west_destinations.any (fun d => strContains dl d) then "west"
  else
    match group with
    | some g => if g = "1" then "east" else if g = "2" then "west" else "east"
    | none => "east"

/-- `next_page` (manager.py lines 525-527): a no-op, the plugin has a
single page. -/
def next_page (st : PState) : PState := st

/-- `prev_page` (manager.py lines 529-531): a no-op. -/
def prev_page (st : PState) : PState := st

/-! ### Concrete fixtures used by the witnesses -/

/-- A well-formed API train record. -/
def sampleTrain : JVal :=
  JVal.obj [("DestinationName", JVal.str " Vienna "), ("Line", JVal.str "OR"),
    ("Min", JVal.str "5")]

/-- The row `_parse_arrivals` builds for `sampleTrain`. -/
def sampleRow : TrainInfo :=
  { destination := "Vienna", line := JVal.str "OR", minutes := "5 MIN",
    color := (255, 165, 0) }

/-- A 64x32 display environment with a 4-pixel-per-character font. -/
def env64 : Env :=
  { enabled := true
    hasDM := true
    width := 64
    height := 32
    textWidth := fun l => 4 * l.length
    station := "Metro Center".toList }

/-- A narrow 20-pixel-wide display with the same font. -/
def env20 : Env :=
  { enabled := true
    hasDM := true
    width := 20
    height := 32
    textWidth := fun l => 4 * l.length
    station := "M".toList }

/-- State holding the parse of a single-train payload, before any
render. -/
def stOne : PState :=
  { initState with
    train_data := (parseArrivals (mkPayload [sampleTrain])).train_data
    actual_train_count := (parseArrivals (mkPayload [sampleTrain])).actual_train_count }

/-- A row whose minutes text is wider than the narrow display. -/
def rowNarrow : TrainInfo :=
  { destination := "Vienna", line := JVal.str "OR", minutes := "3 MIN",
    color := (255, 165, 0) }

/-- State with `rowNarrow` as its only (real) row. -/
def stNarrow : PState :=
  { initState with
    train_data := [rowNarrow]
    actual_train_count := 1 }

/-- State with five real rows: more than fit on `env64`, so scrolling
engages. -/
def stFive : PState :=
  { initState with
    train_data := List.replicate 5 sampleRow
    actual_train_count := 5 }

/-! ### Parse-layer lemmas -/

/-- A well-formed train is processed without raising, producing exactly
`buildRow`. -/
theorem parseTrain_wf (t : JVal) (h : wfTrain t = true) :
    parseTrain t = Except.ok (buildRow t) := by
  cases t with
  | obj kvs =>
    simp only [wfTrain, Bool.and_eq_true] at h
    obtain ⟨h1, h2⟩ := h
    simp only [parseTrain, buildRow]
    cases hd : jGet kvs "DestinationName" (JVal.str "")
    case str s =>
      cases hl : jGet kvs "Line" (JVal.str "")
      case arr l => rw [hl] at h2; simp at h2
      case obj kv => rw [hl] at h2; simp at h2
      all_goals simp [getLineColor]
    all_goals rw [hd] at h1; all_goals simp at h1
  | null => simp [wfTrain] at h
  | bool b => simp [wfTrain] at h
  | num n => simp [wfTrain] at h
  | str s => simp [wfTrain] at h
  | arr l => simp [wfTrain] at h

/-- On a list of well-formed trains the loop succeeds with the rows in
API order. -/
theorem parseTrains_wf (l : List JVal) (h : ∀ t ∈ l, wfTrain t = true) :
    parseTrains l = Except.ok (l.map buildRow) := by
  induction l with
  | nil => rfl
  | cons a rest ih =>
    have ha := parseTrain_wf a (h a (by simp))
    have hr := ih (fun t ht => h t (by simp [ht]))
    simp [parseTrains, ha, hr]

/-! ### Claim theorems -/

/-- C1: `_parse_arrivals` is atomic.  For every payload, afterwards
either the queue is exactly the rows built from the input (in order,
padded to 3 with `"NO DATA"`), or — when any exception was raised while
parsing — the queue is exactly 3 placeholder rows with destination
`"ERROR"`, minutes `"--"`, empty line code and default white color, with
the real-arrival count set to 0.  No partially-built queue is ever left
in place. -/
theorem c1_parse_atomic (data : JVal) :
    (∃ rows, parseArrivalsE data = Except.ok rows ∧
      parseArrivals data =
        { train_data := rows ++ List.replicate (3 - rows.length) noDataRow
          actual_train_count := rows.length }) ∨
    (parseArrivalsE data = Except.error () ∧
      (parseArrivals data).train_data = List.replicate 3 errorRow ∧
      (parseArrivals data).actual_train_count = 0) := by
  unfold parseArrivals
  cases h : parseArrivalsE data with
  | ok rows => exact Or.inl ⟨rows, rfl, by simp [padTo3]⟩
  | error e => exact Or.inr ⟨rfl, rfl, rfl⟩

/-- C2: for every arrivals list of fewer than 3 well-formed records
(including the empty list) `_parse_arrivals` raises no exception, keeps
all real entries in API order, pads to exactly 3 rows with `"NO DATA"`
placeholders (minutes `"--"`, empty line, white color) and records the
real count separately; the empty list yields a queue entirely of
`"NO DATA"` rows with count 0. -/
theorem c2_pad_short_lists (l : List JVal) (hw : ∀ t ∈ l, wfTrain t = true)
    (hlen : l.length < 3) :
    parseArrivalsE (mkPayload l) = Except.ok (l.map buildRow) ∧
    parseArrivals (mkPayload l) =
      { train_data := l.map buildRow ++ List.replicate (3 - l.length) noDataRow
        actual_train_count := l.length } ∧
    (parseArrivals (mkPayload l)).train_data.length = 3 := by
  have h1 : parseArrivalsE (mkPayload l) = Except.ok (l.map buildRow) := by
    unfold parseArrivalsE mkPayload jGetTrains
    simp [jGet, List.find?, iterTrains]
    exact parseTrains_wf l hw
  refine ⟨h1, ?_, ?_⟩
  · unfold parseArrivals
    rw [h1]
    simp [padTo3]
  · unfold parseArrivals
    rw [h1]
    simp [padTo3]
    omega

/-- C2 witness: one well-formed train gives that row plus two `"NO DATA"`
placeholders and a real count of 1. -/
theorem c2_pad_short_lists_witness :
    parseArrivalsE (mkPayload [sampleTrain]) =
      Except.ok ([sampleTrain].map buildRow) ∧
    parseArrivals (mkPayload [sampleTrain]) =
      { train_data := [sampleTrain].map buildRow ++
          List.replicate (3 - [sampleTrain].length) noDataRow
        actual_train_count := [sampleTrain].length } ∧
    (parseArrivals (mkPayload [sampleTrain])).train_data.length = 3 :=
  c2_pad_short_lists [sampleTrain] (by decide) (by decide)

/-- C3: the formatted minutes display is `"ARR"` for the literal
arriving token, `"BRD"` for the boarding token, `"<N> MIN"` when the
field converts to an integer `N` under Python `int`, and `"--"` in
every other (malformed) case. -/
theorem c3_minutes_format (m : JVal) :
    (isStrEq m "ARR" = true → formatMinutes m = "ARR") ∧
    (isStrEq m "ARR" = false → isStrEq m "BRD" = true → formatMinutes m = "BRD") ∧
    (isStrEq m "ARR" = false → isStrEq m "BRD" = false →
      ∀ n : Int, pyInt m = some n → formatMinutes m = toString n ++ " MIN") ∧
    (isStrEq m "ARR" = false → isStrEq m "BRD" = false → pyInt m = none →
      formatMinutes m = "--") := by
  refine ⟨fun h1 => ?_, fun h1 h2 => ?_, fun h1 h2 n hn => ?_, fun h1 h2 hn => ?_⟩ <;>
    unfold formatMinutes <;> rw [h1]
  · rfl
  · rw [h2]; rfl
  · rw [h2]; simp [hn]
  · rw [h2]; simp [hn]

/-- C3 witness: the string `"12"` parses as the integer 12 and formats
as `"12 MIN"`. -/
theorem c3_minutes_format_witness :
    isStrEq (JVal.str "12") "ARR" = false ∧
    isStrEq (JVal.str "12") "BRD" = false ∧
    pyInt (JVal.str "12") = some 12 ∧
    formatMinutes (JVal.str "12") = "12 MIN" :=
  ⟨rfl, rfl, by decide,
    (c3_minutes_format (JVal.str "12")).2.2.1 rfl rfl 12 (by decide)⟩

/-- C4 counterexample: `_get_direction` takes only the destination and
has no direction-group fallback.  For the destination `"Greenbelt"`
(matching no keyword) with direction group `"2"`, the spec-modelled
classifier returns `"west"` while the code returns `"east"`. -/
theorem c4_direction_counterexample :
    getDirection "Greenbelt" = "east" ∧
    specGetDirection "Greenbelt" (some "2") = "west" ∧
    getDirection "Greenbelt" ≠ specGetDirection "Greenbelt" (some "2") := by
  refine ⟨by decide, by decide, by decide⟩

/-- C4 amended: direction classification lowercases the destination,
tests the east-bound keyword list first and the west-bound list second
(first substring match wins), and when no keyword matches it returns
`"east"` unconditionally — there is no direction-group fallback. -/
theorem c4_direction_amended (d : String) :
    (east_destinations.any (fun k => strContains (strLower d) k) = true →
      getDirection d = "east") ∧
    (east_destinations.any (fun k => strContains (strLower d) k) = false →
      west_destinations.any (fun k => strContains (strLower d) k) = true →
      getDirection d = "west") ∧
    (east_destinations.any (fun k => strContains (strLower d) k) = false →
      west_destinations.any (fun k => strContains (strLower d) k) = false →
      getDirection d = "east") := by
  unfold getDirection
  refine ⟨fun h1 => by simp [h1], fun h1 h2 => by simp [h1, h2],
    fun h1 h2 => by simp [h1, h2]⟩

/-- C4 witness: `"Shady Grove"` matches no east keyword, matches the
west list, and is classified `"west"`. -/
theorem c4_direction_amended_witness :
    east_destinations.any (fun k => strContains (strLower "Shady Grove") k) = false ∧
    west_destinations.any (fun k => strContains (strLower "Shady Grove") k) = true ∧
    getDirection "Shady Grove" = "west" :=
  ⟨by decide, by decide,
    (c4_direction_amended "Shady Grove").2.1 (by decide) (by decide)⟩

/-- C7: when the fetch fails (missing-key aside: network error, timeout
or non-2xx all surface as `reqError`; undecodable JSON as `jsonError`),
`_fetch_arrivals` returns `False` and the whole previous state — in
particular `train_data` and `actual_train_count` — is retained
unchanged. -/
theorem c7_fetch_failure_keeps_state (key : String) (net : NetResult) (now : Nat)
    (st : PState) (h : net = NetResult.reqError ∨ net = NetResult.jsonError) :
    fetchArrivals key net now st = (false, st) := by
  unfold fetchArrivals
  rcases h with h | h <;> subst h <;> split <;> rfl

/-- C7 witness: a network failure with a configured key leaves the
initial state untouched and reports `false`. -/
theorem c7_fetch_failure_keeps_state_witness :
    fetchArrivals "key" NetResult.reqError 0 initState = (false, initState) :=
  c7_fetch_failure_keeps_state "key" NetResult.reqError 0 initState (Or.inl rfl)

/-- C9 counterexample: `next_page` is a no-op (the plugin has a single
page), so no observable page state can be `EASTBOUND` before a
`next_page` call and `WESTBOUND` after it — the claimed two-state cycle
does not exist in the code. -/
theorem c9_paging_counterexample :
    next_page initState = initState ∧
    ¬ ∃ page : PState → String,
        page initState = "EASTBOUND" ∧ page (next_page initState) = "WESTBOUND" := by
  refine ⟨rfl, ?_⟩
  rintro ⟨page, h1, h2⟩
  rw [show next_page initState = initState from rfl, h1] at h2
  exact absurd h2 (by decide)

/-- C9 amended: `next_page` and `prev_page` are no-ops; the single-queue
plugin has exactly one page and no paging state machine. -/
theorem c9_paging_amended (st : PState) :
    next_page st = st ∧ prev_page st = st :=
  ⟨rfl, rfl⟩

/-! ### Display-layer lemmas -/

/-- The scroll update leaves queue, count and the render-tracking fields
unchanged. -/
theorem scrollUpdate_preserve (env : Env) (st : PState) :
    (scrollUpdate env st).train_data = st.train_data ∧
    (scrollUpdate env st).actual_train_count = st.actual_train_count ∧
    (scrollUpdate env st).last_rendered_data = st.last_rendered_data ∧
    (scrollUpdate env st).last_scroll_offset = st.last_scroll_offset := by
  unfold scrollUpdate
  split
  · dsimp only
    split <;> exact ⟨rfl, rfl, rfl, rfl⟩
  · exact ⟨rfl, rfl, rfl, rfl⟩

/-- The updated scroll offset is below `max_scroll + line_height`. -/
theorem scrollUpdate_offset_lt (env : Env) (st : PState) :
    (scrollUpdate env st).scroll_offset <
      maxScrollOf env st.actual_train_count + 8 := by
  unfold scrollUpdate maxScrollOf
  split
  · have h0 : (0 : Int) ≤ max 0 ((st.actual_train_count : Int) * 8 - (env.height - 7 - 2)) :=
      le_max_left _ _
    rw [if_pos (by omega)]
    show (st.scroll_step + 7) %
        (max 0 ((st.actual_train_count : Int) * 8 - (env.height - 7 - 2)) + 8).toNat <
      (max 0 ((st.actual_train_count : Int) * 8 - (env.height - 7 - 2))).toNat + 8
    rw [Int.toNat_add h0 (by norm_num)]
    exact Nat.mod_lt _ (by omega)
  · show 0 < _ + 8
    omega

/-- When everything fits, the offset is pinned to 0. -/
theorem scrollUpdate_fit (env : Env) (st : PState)
    (h : st.actual_train_count ≤ maxVisibleTrains env) :
    scrollUpdate env st = { st with scroll_offset := 0 } := by
  unfold scrollUpdate
  rw [if_neg (by omega)]

/-- The fingerprint only depends on the queue contents. -/
theorem hashOf_congr (env : Env) {st1 st2 : PState}
    (h : st1.train_data = st2.train_data) : hashOf env st1 = hashOf env st2 := by
  unfold hashOf
  rw [h]

/-- The state written back by the drawing phase. -/
theorem render_fst (env : Env) (st1 : PState) :
    (render env st1).1 =
      { st1 with
        last_rendered_data := some (hashOf env st1)
        last_scroll_offset := some st1.scroll_offset } := by
  unfold render
  split <;> rfl

/-- The drawing phase always issues at least the `clear` call. -/
theorem render_cmds_ne_nil (env : Env) (st1 : PState) :
    (render env st1).2.2 ≠ [] := by
  unfold render
  split <;> simp

/-- Outside the `"NO DATA"` branch the returned trains are the first
`actual_train_count` queue entries. -/
theorem render_trains (env : Env) (st1 : PState)
    (h : ¬(st1.train_data.isEmpty = true
      ∨ st1.train_data.all (fun t => t.destination == "NO DATA") = true)) :
    (render env st1).2.1 = (st1.train_data.take st1.actual_train_count).map reduceTrain := by
  unfold render
  rw [if_neg h]

/-- `display` in the enabled configuration: suppression check against
the updated scroll offset, then the drawing phase. -/
theorem display_enabled (env : Env) (f : Bool) (st : PState)
    (he : env.enabled = true) (hd : env.hasDM = true) :
    display env f st =
      if st.last_rendered_data = some (hashOf env st)
          ∧ st.last_scroll_offset = some (scrollUpdate env st).scroll_offset
          ∧ f = false then
        (scrollUpdate env st, [], [])
      else render env (scrollUpdate env st) := by
  unfold display
  rw [if_pos ⟨he, hd⟩]

/-- After any enabled `display` call the queue and count are unchanged,
the scroll offset is the updated one, and both render-tracking fields
record the current fingerprint and offset. -/
theorem display_post (env : Env) (f : Bool) (st : PState)
    (he : env.enabled = true) (hd : env.hasDM = true) :
    (display env f st).1.train_data = st.train_data ∧
    (display env f st).1.actual_train_count = st.actual_train_count ∧
    (display env f st).1.scroll_offset = (scrollUpdate env st).scroll_offset ∧
    (display env f st).1.last_rendered_data = some (hashOf env st) ∧
    (display env f st).1.last_scroll_offset = some (scrollUpdate env st).scroll_offset := by
  obtain ⟨p1, p2, p3, p4⟩ := scrollUpdate_preserve env st
  rw [display_enabled env f st he hd]
  split
  · case isTrue h =>
    obtain ⟨hr, hs, hf⟩ := h
    exact ⟨p1, p2, rfl, by rw [show ((scrollUpdate env st, [], []) :
        PState × List (String × String × JVal) × List DrawCmd).1 = scrollUpdate env st
      from rfl, p3, hr], by rw [p4, hs]⟩
  · case isFalse h =>
    rw [render_fst]
    exact ⟨p1, p2, rfl, by rw [show ({ scrollUpdate env st with
        last_rendered_data := some (hashOf env (scrollUpdate env st))
        last_scroll_offset := some (scrollUpdate env st).scroll_offset } :
          PState).last_rendered_data = some (hashOf env (scrollUpdate env st)) from rfl,
      hashOf_congr env p1], rfl⟩

/-- C5: after every (enabled) `display` call the scroll offset lies in
`[0, maxScroll + rowHeight)` — the offset is a `Nat`, so the lower bound
is implicit — where `maxScroll = max 0 (realRowCount * rowHeight -
visibleHeight)`, and whenever the real-row count is at most
`maxVisibleRows = max 3 ((canvasHeight - headerHeight - 2) / rowHeight)`
the offset is exactly 0. -/
theorem c5_scroll_offset_invariant (env : Env) (f : Bool) (st : PState)
    (he : env.enabled = true) (hd : env.hasDM = true) :
    (display env f st).1.scroll_offset <
      maxScrollOf env (display env f st).1.actual_train_count + 8 ∧
    ((display env f st).1.actual_train_count ≤ maxVisibleTrains env →
      (display env f st).1.scroll_offset = 0) := by
  obtain ⟨p1, p2, p3, p4, p5⟩ := display_post env f st he hd
  constructor
  · rw [p3, p2]
    exact scrollUpdate_offset_lt env st
  · intro hfit
    rw [p2] at hfit
    rw [p3, scrollUpdate_fit env st hfit]

/-- C5 witness: with five real rows on a 64x32 canvas (3 visible rows)
the offset stays inside the cycle, and the fit case returns 0. -/
theorem c5_scroll_offset_invariant_witness :
    ((display env64 false stFive).1.scroll_offset <
      maxScrollOf env64 (display env64 false stFive).1.actual_train_count + 8 ∧
    ((display env64 false stFive).1.actual_train_count ≤ maxVisibleTrains env64 →
      (display env64 false stFive).1.scroll_offset = 0)) :=
  c5_scroll_offset_invariant env64 false stFive rfl rfl

/-- C6: a second `display` call with the same queue contents, an
unchanged scroll offset (real rows fit, so the offset is pinned) and no
force-clear flag emits no draw command and returns an empty trains
list; and the very first call after construction always draws, because
the stored fingerprint starts at the uninitialized `none` sentinel. -/
theorem c6_redraw_suppression :
    (∀ (env : Env) (f1 : Bool) (st : PState), env.enabled = true → env.hasDM = true →
      st.actual_train_count ≤ maxVisibleTrains env →
      (display env false (display env f1 st).1).2.1 = [] ∧
      (display env false (display env f1 st).1).2.2 = []) ∧
    (∀ (env : Env) (f : Bool) (st : PState), env.enabled = true → env.hasDM = true →
      st.last_rendered_data = none → (display env f st).2.2 ≠ []) := by
  constructor
  · intro env f1 st he hd hfit
    obtain ⟨p1, p2, p3, p4, p5⟩ := display_post env f1 st he hd
    have hfit1 : (display env f1 st).1.actual_train_count ≤ maxVisibleTrains env := by
      rw [p2]; exact hfit
    have hoff : (scrollUpdate env st).scroll_offset = 0 := by
      rw [scrollUpdate_fit env st hfit]
    have hoff1 : (scrollUpdate env (display env f1 st).1).scroll_offset = 0 := by
      rw [scrollUpdate_fit _ _ hfit1]
    rw [display_enabled env false _ he hd, if_pos]
    · exact ⟨rfl, rfl⟩
    · refine ⟨?_, ?_, rfl⟩
      · rw [p4, hashOf_congr env p1]
      · rw [p5, hoff, hoff1]
  · intro env f st he hd hnone
    rw [display_enabled env f st he hd, if_neg]
    · exact render_cmds_ne_nil env _
    · rintro ⟨h1, -, -⟩
      rw [hnone] at h1
      exact Option.noConfusion h1

/-- C6 witness: from the freshly-constructed state the first call draws
(commands nonempty) and the second call is fully suppressed. -/
theorem c6_redraw_suppression_witness :
    ((display env64 false (display env64 false initState).1).2.1 = [] ∧
      (display env64 false (display env64 false initState).1).2.2 = []) ∧
    (display env64 false initState).2.2 ≠ [] :=
  ⟨c6_redraw_suppression.1 env64 false initState rfl rfl (by decide),
    c6_redraw_suppression.2 env64 false initState rfl rfl rfl⟩

/-! ### Truncation lemmas -/

/-- Exit facts of the shrinking loop: on return either the text fits or
at most one character remains; the result never grows; and it is either
the input itself or strictly shorter. -/
theorem shrinkAux_bounded (w : List Char → Nat) (avail : Int) :
    ∀ (fuel : Nat) (l : List Char), l.length ≤ fuel →
      ((w (shrinkAux w avail fuel l) : Int) ≤ avail
        ∨ (shrinkAux w avail fuel l).length ≤ 1) ∧
      (shrinkAux w avail fuel l).length ≤ l.length ∧
      (shrinkAux w avail fuel l = l ∨ (shrinkAux w avail fuel l).length < l.length) := by
  intro fuel
  induction fuel with
  | zero =>
    intro l hl
    exact ⟨Or.inr (by simp only [shrinkAux]; omega), le_refl _, Or.inl rfl⟩
  | succ n ih =>
    intro l hl
    rw [shrinkAux]
    split
    · case isTrue h =>
      have hdl : l.dropLast.length ≤ n := by
        rw [List.length_dropLast]; omega
      obtain ⟨a, b, c⟩ := ih l.dropLast hdl
      have hd1 : l.dropLast.length = l.length - 1 := List.length_dropLast l
      refine ⟨a, by omega, Or.inr (by omega)⟩
    · case isFalse h =>
      refine ⟨?_, le_refl _, Or.inl rfl⟩
      by_cases hw2 : (w l : Int) ≤ avail
      · exact Or.inl hw2
      · have hgt : (w l : Int) > avail := by omega
        have h1 : ¬(l.length > 1) := fun hl1 => h ⟨hgt, hl1⟩
        exact Or.inr (by omega)

/-- `shrinkToFit` version of the loop facts. -/
theorem shrinkToFit_bounded (w : List Char → Nat) (avail : Int) (l : List Char) :
    ((w (shrinkToFit w avail l) : Int) ≤ avail ∨ (shrinkToFit w avail l).length ≤ 1) ∧
    (shrinkToFit w avail l).length ≤ l.length ∧
    (shrinkToFit w avail l = l ∨ (shrinkToFit w avail l).length < l.length) :=
  shrinkAux_bounded w avail l.length l le_rfl

/-- Text that already fits is returned unchanged by the loop. -/
theorem shrinkToFit_id (w : List Char → Nat) (avail : Int) (l : List Char)
    (h : (w l : Int) ≤ avail) : shrinkToFit w avail l = l := by
  unfold shrinkToFit
  cases hf : l.length with
  | zero => rfl
  | succ n =>
    rw [shrinkAux]
    rw [if_neg (fun hh => absurd h (by omega))]

/-- C8 counterexample: with a 4-pixel-per-character font on the
20-pixel-wide display, the minutes text `"3 MIN"` is 20 pixels wide, so
`max_dest_available = 20 - 20 - 2 - 2 = -4`; the destination
`"Vienna"` is truncated to the bare ellipsis `".."`, which `display`
draws even though its measured width (8) exceeds `minutesX - spacing`
(-4) — so the claimed bound does not hold for the rendered row. -/
theorem c8_truncation_counterexample :
    DrawCmd.text ['.', '.'] 0 8 (255, 165, 0) ∈ (display env20 true stNarrow).2.2 ∧
    truncDest env20.textWidth
      (env20.width - (env20.textWidth "3 MIN".toList : Int) - 2 - 2)
      "Vienna".toList = ['.', '.'] ∧
    ((env20.textWidth ['.', '.'] : Int) >
      env20.width - (env20.textWidth "3 MIN".toList : Int) - 2 - 2) :=
  ⟨by decide, by decide, by decide⟩

/-- C8 amended: for a fixed-width font (`w s = cw * len s`), the drawn
destination width never exceeds `max (minutesX - spacing) (width "..")`
— the original `minutesX - spacing` bound can be exceeded only by the
two-dot ellipsis itself, when even one character (or the ellipsis) is
wider than the available space; whenever the destination was truncated
the drawn text ends with the two-character ellipsis `".."`; and a
destination that already fits is drawn unchanged. -/
theorem c8_truncation_amended (cw : Nat) (avail : Int) (dest : List Char)
    (w : List Char → Nat) (hw : ∀ l, w l = cw * l.length) :
    ((w (truncDest w avail dest) : Int) ≤ max avail (2 * (cw : Int))) ∧
    (truncDest w avail dest ≠ dest → ['.', '.'] <:+ truncDest w avail dest) ∧
    ((w dest : Int) ≤ avail → truncDest w avail dest = dest) := by
  obtain ⟨hexit, hlen, heq⟩ := shrinkToFit_bounded w avail dest
  simp only [truncDest]
  refine ⟨?_, ?_, ?_⟩
  · by_cases hsh : (shrinkToFit w avail dest).length < dest.length
    · rw [if_pos hsh]
      simp only [ellipsize]
      split
      · rename_i h3
        rcases hexit with hfit | hone
        · have hlen2 : ((shrinkToFit w avail dest).dropLast.dropLast ++ ['.', '.']).length
              = (shrinkToFit w avail dest).length := by
            simp [List.length_dropLast]
            omega
          rw [hw, hlen2, ← hw]
          exact le_max_of_le_left hfit
        · omega
      · rename_i h3
        rw [hw, show (['.', '.'] : List Char).length = 2 from rfl]
        refine le_max_of_le_right ?_
        push_cast
        omega
    · rw [if_neg hsh]
      rcases hexit with hfit | hone
      · exact le_max_of_le_left hfit
      · rw [hw]
        have h01 : (shrinkToFit w avail dest).length = 0
            ∨ (shrinkToFit w avail dest).length = 1 := by omega
        refine le_max_of_le_right ?_
        rcases h01 with h01 | h01 <;> rw [h01] <;> push_cast <;> omega
  · intro hne
    by_cases hsh : (shrinkToFit w avail dest).length < dest.length
    · rw [if_pos hsh]
      simp only [ellipsize]
      split
      · exact List.suffix_append _ _
      · exact List.suffix_rfl
    · rw [if_neg hsh] at hne
      have ht : shrinkToFit w avail dest = dest := by
        rcases heq with h | h
        · exact h
        · omega
      exact absurd ht hne
  · intro hfit2
    have ht : shrinkToFit w avail dest = dest := shrinkToFit_id w avail dest hfit2
    rw [ht, if_neg (lt_irrefl _)]

/-- C8 amended witness: with a 4-pixel font and 20 available pixels,
`"Washington"` (40 px) is truncated to `"Was.."` (20 px ≤ max 20 8,
ending in `".."`), while `"Me"` (8 px) fits and is unchanged. -/
theorem c8_truncation_amended_witness :
    ((fun l : List Char => 4 * l.length)
        (truncDest (fun l : List Char => 4 * l.length) 20 "Washington".toList) : Int) ≤
      max 20 (2 * (4 : Int)) ∧
    (truncDest (fun l : List Char => 4 * l.length) 20 "Washington".toList ≠
        "Washington".toList →
      ['.', '.'] <:+ truncDest (fun l : List Char => 4 * l.length) 20 "Washington".toList) ∧
    truncDest (fun l : List Char => 4 * l.length) 20 "Me".toList = "Me".toList :=
  ⟨(c8_truncation_amended 4 20 "Washington".toList _ (fun _ => rfl)).1,
    (c8_truncation_amended 4 20 "Washington".toList _ (fun _ => rfl)).2.1,
    (c8_truncation_amended 4 20 "Me".toList _ (fun _ => rfl)).2.2 (by decide)⟩

/-- C10: on a successful render (enabled plugin, changed fingerprint,
queue not all `"NO DATA"`), the returned `"trains"` list is exactly the
real parsed rows reduced to destination, minutes and line — the
`"NO DATA"` padding never appears in it — and its length equals the
real-arrival count. -/
theorem c10_trains_output (env : Env) (f : Bool) (data : JVal) (rows : List TrainInfo)
    (st : PState) (he : env.enabled = true) (hd : env.hasDM = true)
    (hok : parseArrivalsE data = Except.ok rows)
    (ht : st.train_data = (parseArrivals data).train_data)
    (hc : st.actual_train_count = (parseArrivals data).actual_train_count)
    (hnone : st.last_rendered_data = none)
    (hnd : ¬(st.train_data.isEmpty = true
      ∨ st.train_data.all (fun t => t.destination == "NO DATA") = true)) :
    (display env f st).2.1 = rows.map reduceTrain ∧
    (display env f st).2.1.length = st.actual_train_count := by
  have hparse : parseArrivals data =
      { train_data := padTo3 rows, actual_train_count := rows.length } := by
    unfold parseArrivals
    rw [hok]
  rw [hparse] at ht hc
  have hmain : (display env f st).2.1 = rows.map reduceTrain := by
    rw [display_enabled env f st he hd, if_neg]
    · obtain ⟨p1, p2, p3, p4⟩ := scrollUpdate_preserve env st
      have hnd1 : ¬((scrollUpdate env st).train_data.isEmpty = true
          ∨ (scrollUpdate env st).train_data.all
            (fun t => t.destination == "NO DATA") = true) := by
        rw [p1]; exact hnd
      rw [render_trains env _ hnd1, p1, p2, ht, hc]
      unfold padTo3
      rw [List.take_left]
    · rintro ⟨h1, -, -⟩
      rw [hnone] at h1
      exact Option.noConfusion h1
  refine ⟨hmain, ?_⟩
  rw [hmain, List.length_map, hc]

/-- C10 witness: the single-train state renders exactly that train's
(destination, minutes, line) triple and nothing else. -/
theorem c10_trains_output_witness :
    (display env64 false stOne).2.1 = [buildRow sampleTrain].map reduceTrain ∧
    (display env64 false stOne).2.1.length = stOne.actual_train_count :=
  c10_trains_output env64 false (mkPayload [sampleTrain]) [buildRow sampleTrain] stOne
    rfl rfl rfl rfl rfl rfl (by decide)

end MetroStatus
